import Mathlib

/-!
Shallow embedding of the `httpcache` Go package (`roundtripper.go`).

The package is an `http.RoundTripper` decorator handling two synthetic URL
schemes, `cache:` (validating fetch) and `cachez:` (cache-only fetch).
External collaborators (the wrapped transport, the filesystem, SHA-256 and
hex encoding, HTTP date formatting) are modelled as explicit function
parameters; the decision logic of `roundtripper.go` is translated directly.
-/

deriving instance DecidableEq for Except

namespace Httpcache

/-- Model of Go's `net/url.URL` restricted to what `roundtripper.go`
inspects: the scheme and the remainder of the serialized form.  For a URL
parsed from `"cache:https://h/p"` Go stores `Scheme = "cache"`,
`Opaque = "https://h/p"`, and `String()` returns `"cache:https://h/p"`;
`rest` holds everything after the `scheme:` marker of the serialized form
(for hierarchical URLs such as `https://h/p` that is `"//h/p"`). -/
structure GoURL where
  scheme : String
  rest : String
deriving DecidableEq

/-- Model of `url.URL.String()`: `scheme ++ ":" ++ rest` when a scheme is
present, else just the remainder. -/
def renderURL (u : GoURL) : String :=
  if u.scheme = "" then u.rest else u.scheme ++ ":" ++ u.rest

/-- Model of `strings.HasPrefix` on character lists. -/
def listHasPfx : List Char → List Char → Bool
  | _, [] => true
  | [], _ :: _ => false
  | c :: cs, p :: ps => c == p && listHasPfx cs ps

/-- Model of `strings.HasPrefix`. -/
def goHasPfx (s p : String) : Bool :=
  listHasPfx s.data p.data

/-- Model of `strings.TrimPrefix`. -/
def goTrimPfx (s p : String) : String :=
  if goHasPfx s p then ⟨s.data.drop p.data.length⟩ else s

/-- Model of Go's `stringContainsCTLByte` check performed by `url.Parse`:
a control character is a byte below 0x20 or the byte 0x7f. -/
def containsCTL (s : String) : Bool :=
  s.data.any (fun c => c.toNat < 32 || c.toNat == 127)

/-- ASCII lowercasing used by `url.Parse` on the scheme. -/
def goToLower (s : String) : String :=
  ⟨s.data.map Char.toLower⟩

/-- Model of `net/url.getScheme`: scan the characters of the raw URL;
letters continue the candidate scheme, digits and `+ - .` continue it only
when it is nonempty, a colon terminates it (an immediate colon is the
`"missing protocol scheme"` error), and any other character means the URL
carries no scheme at all.  `orig` is the whole raw string, returned
untouched when no scheme is found; `acc` holds the scheme characters read
so far, in reverse. -/
def getSchemeAux (orig : String) : List Char → List Char → Except String (String × String)
  | [], _ => .ok ("", orig)
  | c :: cs, acc =>
    if c.isAlpha then
      getSchemeAux orig cs (c :: acc)
    else if c.isDigit || c == '+' || c == '-' || c == '.' then
      if acc.isEmpty then .ok ("", orig) else getSchemeAux orig cs (c :: acc)
    else if c == ':' then
      if acc.isEmpty then .error "missing protocol scheme"
      else .ok (⟨acc.reverse⟩, ⟨cs⟩)
    else .ok ("", orig)

/-- Model of `net/url.getScheme` on a string. -/
def getScheme (s : String) : Except String (String × String) :=
  getSchemeAux s s.data []

/-- Model of the part of `net/url.Parse` that `roundtripper.go` depends
on: reject control characters, split off the scheme, lowercase it, and keep
the remainder of the serialized form verbatim. -/
def parseGoURL (s : String) : Except String GoURL :=
  if containsCTL s then .error "net/url: invalid control character in URL"
  else
    match getScheme s with
    | .error e => .error e
    | .ok (sch, tail) => .ok ⟨goToLower sch, tail⟩

/-- Translation of `unwrapScheme` from `roundtripper.go`: check the
serialized URL starts with `scheme:`, strip that marker, require a nonempty
remainder, parse it, and require the parsed destination to carry its own
scheme. -/
def unwrapScheme (u : GoURL) (sch : String) : Except String GoURL :=
  let raw := renderURL u
  let pfx := sch ++ ":"
  if !goHasPfx raw pfx then
    .error ("url does not start with " ++ pfx ++ " prefix")
  else
    let targetRaw := goTrimPfx raw pfx
    if targetRaw = "" then
      .error ("missing downstream URL after " ++ pfx ++ " prefix")
    else
      match parseGoURL targetRaw with
      | .error e => .error ("parse downstream URL: " ++ e)
      | .ok targetURL =>
        if targetURL.scheme = "" then .error "downstream URL must include scheme"
        else .ok targetURL

/-- Translation of `cachePathForURL` from `roundtripper.go`.  `hash`
models the `sha256.Sum256` / `hex.EncodeToString` pipeline applied to the
canonical string of the key URL; `cloneURL` is the value copy implicit in
the record update.  A synthetic scheme left on the destination URL is
normalized to `http` before hashing. -/
def cachePathForURL (hash : String → String) (cacheDir : String) (u : GoURL) : String :=
  let keyURL := if u.scheme = "cache" || u.scheme = "cachez" then { u with scheme := "http" } else u
  cacheDir ++ "/" ++ hash (renderURL keyURL)

/-- Model of `*http.Request` restricted to what `roundtripper.go` touches:
the URL and the header map.  `req.Clone` is the record update of a pure
value. -/
structure Request where
  url : GoURL
  headers : List (String × String)
deriving DecidableEq

/-- Model of `http.Header.Get`: first value for the key, or `""`. -/
def headerGet (hs : List (String × String)) (k : String) : String :=
  match hs.find? (fun p => p.1 == k) with
  | some p => p.2
  | none => ""

/-- Model of `http.Header.Set`: replace every value for the key with the
one given. -/
def headerSet (hs : List (String × String)) (k v : String) : List (String × String) :=
  (k, v) :: hs.filter (fun p => p.1 != k)

/-- Model of `*http.Response` restricted to the fields `roundtripper.go`
reads or writes.  `body` models the result of reading the body stream to
the end: the buffered bytes, or the read error `io.ReadAll` would report.
A body already in memory (a cached response, or a rebuffered upstream
body) is an `.ok` value. -/
structure Response where
  statusCode : Nat
  status : String
  headers : List (String × String)
  body : Except String (List Nat)
  contentLength : Int
  request : Option Request
deriving DecidableEq

/-- Model of the `http.RoundTripper` capability: a request either yields a
response or a transport error. -/
def Transport : Type :=
  Request → Except String Response

/-- Outcome of `readCacheFile` (an `os.Stat` plus `os.ReadFile`): the
entry's bytes and modification time, a not-found signal
(`errors.Is(err, os.ErrNotExist)`), or any other storage error. -/
inductive CacheRead where
  | found (body : List Nat) (modTime : Int)
  | notFound
  | ioErr (e : String)
deriving DecidableEq

/-- External collaborators of the round-trip logic: `hash` models the
`sha256.Sum256`/`hex.EncodeToString` pipeline of `cachePathForURL`,
`store` models `readCacheFile` keyed by cache path, `writeCache` models
`writeCacheFile`, and `fmtTime` models
`modTime.UTC().Format(http.TimeFormat)`. -/
structure Deps where
  hash : String → String
  store : String → CacheRead
  writeCache : String → List Nat → Except String Unit
  fmtTime : Int → String

/-- Translation of the `cacheRoundTripper` struct: the wrapped transport
(`nil` modelled as `none`) and the cache directory. -/
structure CacheRoundTripper where
  original : Option Transport
  cacheDir : String

/-- Observable side effects of one round trip: the requests handed to the
wrapped transport (in order) and the cache writes attempted. -/
structure Effects where
  transportReqs : List Request := []
  cacheWrites : List (String × List Nat) := []
deriving DecidableEq

/-- Effects of a round trip that called the transport once and wrote
nothing. -/
def effOne (r : Request) : Effects :=
  { transportReqs := [r] }

/-- Translation of `cachedResponse` from `roundtripper.go`: status 200,
the `X-HTTP-Cache: HIT` marker header, the cached bytes as an
`io.NopCloser(bytes.NewReader(body))` buffered body, content length equal
to the byte count, and the caller's request. -/
def cachedResponse (req : Request) (body : List Nat) : Response :=
  { statusCode := 200
    status := "200 OK"
    headers := [("X-HTTP-Cache", "HIT")]
    body := .ok body
    contentLength := (body.length : Int)
    request := some req }

/-- Go's `http.StatusOK`. -/
def StatusOK : Nat := 200

/-- Go's `http.StatusMultipleChoices`. -/
def StatusMultipleChoices : Nat := 300

/-- Go's `http.StatusNotModified`. -/
def StatusNotModified : Nat := 304

/-- The upstream request built by `roundTripWithValidation`: the caller's
request cloned (`req.Clone`), retargeted at the unwrapped destination, and
given an `If-Modified-Since` header derived from the entry's modification
time when an entry exists and the caller set none. -/
def upstreamRequest (d : Deps) (req : Request) (u : GoURL) (hasCache : Bool) (mt : Int) :
    Request :=
  let base : Request := { req with url := u }
  if hasCache ∧ headerGet base.headers "If-Modified-Since" = "" then
    { base with headers := headerSet base.headers "If-Modified-Since" (d.fmtTime mt) }
  else base

/-- Translation of the tail of `roundTripWithValidation`, after the cache
read: build the upstream request, delegate to the transport, and classify
the outcome.  On transport error or a non-2xx, non-304 status the cached
entry (when present) wins; a 2xx body is rebuffered, written back to the
cache best-effort (`_ = writeCacheFile(...)`, result discarded), and
returned with its content length updated.  `drainAndClose` only releases
the network stream and has no observable effect here. -/
def validateFetch (d : Deps) (t : Transport) (req : Request) (path : String)
    (u : GoURL) (hasCache : Bool) (cachedBody : List Nat) (mt : Int) :
    Except String Response × Effects :=
  let upReq := upstreamRequest d req u hasCache mt
  match t upReq with
  | .error e =>
    if hasCache then (.ok (cachedResponse req cachedBody), effOne upReq)
    else (.error e, effOne upReq)
  | .ok resp =>
    if hasCache ∧ resp.statusCode = StatusNotModified then
      (.ok (cachedResponse req cachedBody), effOne upReq)
    else if StatusOK ≤ resp.statusCode ∧ resp.statusCode < StatusMultipleChoices then
      match resp.body with
      | .error readErr =>
        if hasCache then (.ok (cachedResponse req cachedBody), effOne upReq)
        else (.error readErr, effOne upReq)
      | .ok bytes =>
        let _ := d.writeCache path bytes
        (.ok { resp with body := .ok bytes, contentLength := (bytes.length : Int) },
         { transportReqs := [upReq], cacheWrites := [(path, bytes)] })
    else if hasCache then
      (.ok (cachedResponse req cachedBody), effOne upReq)
    else (.ok resp, effOne upReq)

/-- Translation of `roundTripWithValidation`: unwrap the `cache:` marker,
read the cache entry for the derived path (a storage error other than
not-found is fatal), then validate against upstream via `validateFetch`.
On a cache miss Go leaves `cachedBody` nil and `cachedInfo` nil; the model
passes `[]` and `0`, which `validateFetch` never reads when `hasCache` is
`false`. -/
def roundTripWithValidation (d : Deps) (c : CacheRoundTripper) (t : Transport)
    (req : Request) : Except String Response × Effects :=
  match unwrapScheme req.url "cache" with
  | .error e => (.error e, {})
  | .ok downstreamURL =>
    match d.store (cachePathForURL d.hash c.cacheDir downstreamURL) with
    | .ioErr e => (.error e, {})
    | .notFound =>
      validateFetch d t req (cachePathForURL d.hash c.cacheDir downstreamURL)
        downstreamURL false [] 0
    | .found cachedBody mt =>
      validateFetch d t req (cachePathForURL d.hash c.cacheDir downstreamURL)
        downstreamURL true cachedBody mt

/-- Translation of `roundTripCacheOnly`: unwrap the `cachez:` marker, read
the cache entry, and serve it; a missing entry is a `cache miss` error
naming the destination URL, any other storage error is propagated.  The
transport is never consulted. -/
def roundTripCacheOnly (d : Deps) (c : CacheRoundTripper) (req : Request) :
    Except String Response × Effects :=
  match unwrapScheme req.url "cachez" with
  | .error e => (.error e, {})
  | .ok downstreamURL =>
    match d.store (cachePathForURL d.hash c.cacheDir downstreamURL) with
    | .found cachedBody _ => (.ok (cachedResponse req cachedBody), {})
    | .notFound => (.error ("cache miss for " ++ renderURL downstreamURL), {})
    | .ioErr e => (.error e, {})

/-- Translation of `cacheRoundTripper.RoundTrip`: fail if the wrapped
transport is unset, then dispatch on the request's scheme — `cache` to the
validating fetch, `cachez` to the cache-only fetch, anything else straight
through to the wrapped transport. -/
def RoundTrip (d : Deps) (c : CacheRoundTripper) (req : Request) :
    Except String Response × Effects :=
  match c.original with
  | none => (.error "original RoundTripper is not set", {})
  | some t =>
    if req.url.scheme = "cache" then roundTripWithValidation d c t req
    else if req.url.scheme = "cachez" then roundTripCacheOnly d c req
    else (t req, effOne req)

/-- Translation of `NewRoundTripper`: an empty cache directory and a
failing `os.MkdirAll` (modelled by `mkdirAll`) are construction errors; a
`nil` wrapped transport is replaced by `http.DefaultTransport` (modelled
by `defaultT`). -/
def NewRoundTripper (defaultT : Transport) (mkdirAll : String → Except String Unit)
    (cacheDir : String) (original : Option Transport) :
    Except String CacheRoundTripper :=
  if cacheDir = "" then .error "cache directory is required"
  else
    match mkdirAll cacheDir with
    | .error e => .error ("create cache directory: " ++ e)
    | .ok _ =>
      let orig := match original with
        | none => defaultT
        | some t => t
      .ok { original := some orig, cacheDir := cacheDir }

/-- Model of `*http.Transport` restricted to what `AddCacheRoundTripper`
uses: its table of registered protocol handlers (`RegisterProtocol`), with
the `nil` pointer modelled as `none`. -/
def HostTransport : Type :=
  Option (List (String × CacheRoundTripper))

/-- Translation of `AddCacheRoundTripper`: a `nil` host transport is a
registration error; otherwise construct the decorator and register it for
the `cache` and `cachez` protocols. -/
def AddCacheRoundTripper (defaultT : Transport) (mkdirAll : String → Except String Unit)
    (cacheDir : String) (original : Option Transport) (transport : HostTransport) :
    Except String (List (String × CacheRoundTripper)) :=
  match transport with
  | none => .error "transport is nil"
  | some regs =>
    match NewRoundTripper defaultT mkdirAll cacheDir original with
    | .error e => .error e
    | .ok rt => .ok (regs ++ [("cache", rt), ("cachez", rt)])

/-- Whether an `Except` value is a success. -/
def exceptOk {ε α : Type} : Except ε α → Bool
  | .ok _ => true
  | .error _ => false

/-! Concrete fixtures used to evaluate the model on closed inputs. -/

/-- Identity stand-in for the hash pipeline on concrete inputs. -/
def hashId : String → String := fun s => s

/-- Store fixture holding one entry everywhere: bytes `[1, 2]`, modification
time `5`. -/
def storeHit : String → CacheRead := fun _ => .found [1, 2] 5

/-- Store fixture with no entries. -/
def storeMiss : String → CacheRead := fun _ => .notFound

/-- Cache-write fixture that always succeeds. -/
def writeOk : String → List Nat → Except String Unit := fun _ _ => .ok ()

/-- Cache-write fixture that always fails. -/
def writeFail : String → List Nat → Except String Unit := fun _ _ => .error "disk full"

/-- Date-formatting fixture. -/
def fmtFix : Int → String := fun t => "mt=" ++ toString t

/-- Dependency fixture over the one-entry store. -/
def depsHit : Deps := ⟨hashId, storeHit, writeOk, fmtFix⟩

/-- Dependency fixture over the empty store. -/
def depsMiss : Deps := ⟨hashId, storeMiss, writeOk, fmtFix⟩

/-- Transport fixture failing with a network error. -/
def tErr : Transport := fun _ => .error "boom"

/-- Transport fixture answering 304 with an empty body. -/
def tNotModified : Transport := fun r =>
  .ok { statusCode := 304, status := "304 Not Modified", headers := [],
        body := .ok [], contentLength := 0, request := some r }

/-- Transport fixture answering 200 with body `[7, 8, 9]`. -/
def tFresh : Transport := fun r =>
  .ok { statusCode := 200, status := "200 OK", headers := [],
        body := .ok [7, 8, 9], contentLength := -1, request := some r }

/-- Transport fixture answering 500. -/
def tServerError : Transport := fun r =>
  .ok { statusCode := 500, status := "500 Internal Server Error", headers := [],
        body := .ok [4], contentLength := 1, request := some r }

/-- Transport fixture answering 200 with a body whose read fails. -/
def tReadFail : Transport := fun r =>
  .ok { statusCode := 200, status := "200 OK", headers := [],
        body := .error "unexpected EOF", contentLength := -1, request := some r }

/-- Request fixture for the validating scheme, wrapping `http://x`. -/
def reqFix : Request := ⟨⟨"cache", "http://x"⟩, []⟩

/-- Request fixture for the cache-only scheme, wrapping `http://x`. -/
def reqFixZ : Request := ⟨⟨"cachez", "http://x"⟩, []⟩

/-- Request fixture with a caller-supplied `If-Modified-Since` header. -/
def reqIMS : Request := ⟨⟨"cache", "http://x"⟩, [("If-Modified-Since", "X")]⟩

/-- Decorator fixture. -/
def rtFix : CacheRoundTripper := ⟨none, "d"⟩

/-- Directory-creation fixture that always succeeds. -/
def mkdirOk : String → Except String Unit := fun _ => .ok ()

example : unwrapScheme ⟨"cache", "https://example.com/data"⟩ "cache"
    = .ok ⟨"https", "//example.com/data"⟩ := by decide

example : unwrapScheme ⟨"cachez", "https://example.com/data"⟩ "cache"
    = .error "url does not start with cache: prefix" := by decide

example : unwrapScheme ⟨"cache", ""⟩ "cache"
    = .error "missing downstream URL after cache: prefix" := by decide

example : unwrapScheme ⟨"cache", "nopath"⟩ "cache"
    = .error "downstream URL must include scheme" := by decide

example : unwrapScheme ⟨"cache", ":x"⟩ "cache"
    = .error "parse downstream URL: missing protocol scheme" := by decide

example : cachePathForURL (fun s => s) "dir" ⟨"cachez", "//h/p"⟩ = "dir/http://h/p" := by decide

example : unwrapScheme reqFix.url "cache" = .ok ⟨"http", "//x"⟩ := by decide

example : (roundTripWithValidation depsHit rtFix tErr reqFix).1
    = .ok (cachedResponse reqFix [1, 2]) := by decide

example : (roundTripWithValidation depsMiss rtFix tErr reqFix).1 = .error "boom" := by decide

example : (roundTripWithValidation depsHit rtFix tNotModified reqFix).1
    = .ok (cachedResponse reqFix [1, 2]) := by decide

example : (roundTripWithValidation depsHit rtFix tServerError reqFix).1
    = .ok (cachedResponse reqFix [1, 2]) := by decide

example : (roundTripWithValidation depsHit rtFix tFresh reqFix).2.cacheWrites
    = [("d/http://x", [7, 8, 9])] := by decide

example : (roundTripWithValidation depsHit rtFix tFresh reqFix).2.transportReqs
    = [⟨⟨"http", "//x"⟩, [("If-Modified-Since", "mt=5")]⟩] := by decide

example : (roundTripCacheOnly depsMiss rtFix reqFixZ).1
    = .error "cache miss for http://x" := by decide

example : (RoundTrip depsHit ⟨some tErr, "d"⟩ reqFixZ).2.transportReqs = [] := by decide

/-! Helper lemmas. -/

theorem listHasPfx_nil (s : List Char) : listHasPfx s [] = true := by
  cases s <;> rfl

theorem listHasPfx_self_append (p s : List Char) : listHasPfx (p ++ s) p = true := by
  induction p with
  | nil => exact listHasPfx_nil s
  | cons c cs ih => simp [listHasPfx, ih]

theorem listHasPfx_length {s p : List Char} (h : listHasPfx s p = true) :
    p.length ≤ s.length := by
  induction p generalizing s with
  | nil => simp
  | cons c cs ih =>
    cases s with
    | nil => simp [listHasPfx] at h
    | cons a as =>
      simp only [listHasPfx, Bool.and_eq_true] at h
      simpa using ih h.2

theorem goHasPfx_self_append (p s : String) : goHasPfx (p ++ s) p = true := by
  unfold goHasPfx
  rw [String.data_append]
  exact listHasPfx_self_append p.data s.data

theorem goTrimPfx_self_append (p s : String) : goTrimPfx (p ++ s) p = s := by
  unfold goTrimPfx
  rw [goHasPfx_self_append, if_pos rfl, String.data_append, List.drop_left]

theorem getSchemeAux_ok_length {orig : String} {cs acc : List Char} {sch tail : String}
    (h : getSchemeAux orig cs acc = .ok (sch, tail)) :
    (sch = "" ∧ tail = orig) ∨
      sch.data.length + 1 + tail.data.length = acc.length + cs.length := by
  induction cs generalizing acc with
  | nil =>
    simp only [getSchemeAux, Except.ok.injEq, Prod.mk.injEq] at h
    exact Or.inl ⟨h.1.symm, h.2.symm⟩
  | cons c cs ih =>
    simp only [getSchemeAux] at h
    by_cases ha : c.isAlpha
    · rw [if_pos ha] at h
      rcases ih h with h' | h'
      · exact Or.inl h'
      · right
        simp only [List.length_cons] at h' ⊢
        omega
    · rw [if_neg ha] at h
      by_cases hd : (c.isDigit || c == '+' || c == '-' || c == '.') = true
      · rw [if_pos hd] at h
        by_cases he : acc.isEmpty
        · rw [if_pos he] at h
          simp only [Except.ok.injEq, Prod.mk.injEq] at h
          exact Or.inl ⟨h.1.symm, h.2.symm⟩
        · rw [if_neg he] at h
          rcases ih h with h' | h'
          · exact Or.inl h'
          · right
            simp only [List.length_cons] at h' ⊢
            omega
      · rw [if_neg hd] at h
        by_cases hc : c = ':'
        · simp only [hc, beq_self_eq_true, if_pos] at h
          by_cases he : acc.isEmpty
          · rw [if_pos he] at h
            exact absurd h (by simp)
          · rw [if_neg he] at h
            simp only [Except.ok.injEq, Prod.mk.injEq] at h
            right
            rw [← h.1, ← h.2]
            simp only [List.length_reverse, List.length_cons]
            omega
        · have hcb : (c == ':') = false := by simp [hc]
          rw [hcb] at h
          simp only [Bool.false_eq_true, if_false, Except.ok.injEq, Prod.mk.injEq] at h
          exact Or.inl ⟨h.1.symm, h.2.symm⟩

theorem parseGoURL_ok_render_length {s : String} {t : GoURL}
    (h : parseGoURL s = .ok t) (hsch : t.scheme ≠ "") :
    (renderURL t).data.length = s.data.length := by
  unfold parseGoURL at h
  by_cases hc : containsCTL s = true
  · rw [if_pos hc] at h; exact absurd h (by simp)
  · rw [if_neg hc] at h
    cases hg : getScheme s with
    | error e => rw [hg] at h; exact absurd h (by simp)
    | ok p =>
      rw [hg] at h
      obtain ⟨sch, tail⟩ := p
      simp only [Except.ok.injEq] at h
      rcases getSchemeAux_ok_length hg with h' | h'
      · exfalso
        apply hsch
        rw [← h]
        simp [goToLower, h'.1]
      · rw [← h] at hsch ⊢
        simp only [renderURL] at hsch ⊢
        rw [if_neg (by simpa using hsch)]
        have hcolon : (":" : String).data = [':'] := rfl
        simp only [String.data_append, List.length_append, hcolon, List.length_cons,
          List.length_nil]
        simp only [goToLower, List.length_map, List.length_nil] at h' ⊢
        omega

theorem unwrapScheme_ok_iff (u : GoURL) (sch : String) (t : GoURL) :
    unwrapScheme u sch = .ok t ↔
      (goHasPfx (renderURL u) (sch ++ ":") = true
        ∧ goTrimPfx (renderURL u) (sch ++ ":") ≠ ""
        ∧ parseGoURL (goTrimPfx (renderURL u) (sch ++ ":")) = .ok t
        ∧ t.scheme ≠ "") := by
  unfold unwrapScheme
  cases hp : goHasPfx (renderURL u) (sch ++ ":") with
  | false => simp [hp]
  | true =>
    simp only [hp, Bool.not_true, Bool.false_eq_true, if_false, true_and]
    by_cases he : goTrimPfx (renderURL u) (sch ++ ":") = ""
    · simp [he]
    · simp only [he, if_neg, ne_eq, not_false_eq_true, true_and]
      cases hr : parseGoURL (goTrimPfx (renderURL u) (sch ++ ":")) with
      | error e => simp
      | ok v =>
        by_cases hs : v.scheme = ""
        · simp only [hs, if_pos rfl]
          constructor
          · intro h; exact absurd h (by simp)
          · rintro ⟨hv, hvs⟩
            simp only [Except.ok.injEq] at hv
            exact absurd (hv ▸ hs) hvs
        · simp only [if_neg hs]
          constructor
          · rintro h
            simp only [Except.ok.injEq] at h
            exact ⟨by rw [h], h ▸ hs⟩
          · rintro ⟨hv, _⟩
            simp only [Except.ok.injEq] at hv
            rw [hv]

theorem unwrapScheme_ok_ne {u : GoURL} {sch : String} {t : GoURL}
    (h : unwrapScheme u sch = .ok t) : t ≠ u := by
  rw [unwrapScheme_ok_iff] at h
  obtain ⟨hp, _, hparse, hsch⟩ := h
  intro hteq
  have hlenp : (sch ++ ":").data.length ≤ (renderURL u).data.length :=
    listHasPfx_length (by simpa [goHasPfx] using hp)
  have hpfxlen : 1 ≤ (sch ++ ":").data.length := by
    rw [String.data_append]
    simp
  have htrim : (goTrimPfx (renderURL u) (sch ++ ":")).data.length
      = (renderURL u).data.length - (sch ++ ":").data.length := by
    unfold goTrimPfx
    rw [hp]
    simp [List.length_drop]
  have hrender := parseGoURL_ok_render_length hparse hsch
  rw [htrim] at hrender
  rw [hteq] at hrender
  omega

theorem headerGet_headerSet (hs : List (String × String)) (k v : String) :
    headerGet (headerSet hs k v) k = v := by
  simp [headerGet, headerSet]

theorem validateFetch_effects (d : Deps) (t : Transport) (req : Request) (path : String)
    (u : GoURL) (hasCache : Bool) (cachedBody : List Nat) (mt : Int) :
    (validateFetch d t req path u hasCache cachedBody mt).2.transportReqs
      = [upstreamRequest d req u hasCache mt] := by
  cases ht : t (upstreamRequest d req u hasCache mt) with
  | error e =>
    simp only [validateFetch, ht]
    cases hasCache <;> simp [effOne]
  | ok resp =>
    simp only [validateFetch, ht]
    by_cases h304 : (hasCache : Prop) ∧ resp.statusCode = StatusNotModified
    · rw [if_pos h304]
      simp [effOne]
    · rw [if_neg h304]
      by_cases h2xx : StatusOK ≤ resp.statusCode ∧ resp.statusCode < StatusMultipleChoices
      · rw [if_pos h2xx]
        cases hb : resp.body with
        | error readErr => cases hasCache <;> simp [effOne]
        | ok bytes => simp [effOne]
      · rw [if_neg h2xx]
        cases hasCache <;> simp [effOne]

theorem roundTripWithValidation_found (d : Deps) (c : CacheRoundTripper) (t : Transport)
    (req : Request) (u : GoURL) (body : List Nat) (mt : Int)
    (hu : unwrapScheme req.url "cache" = .ok u)
    (hs : d.store (cachePathForURL d.hash c.cacheDir u) = .found body mt) :
    roundTripWithValidation d c t req
      = validateFetch d t req (cachePathForURL d.hash c.cacheDir u) u true body mt := by
  simp [roundTripWithValidation, hu, hs]

theorem roundTripWithValidation_notFound (d : Deps) (c : CacheRoundTripper) (t : Transport)
    (req : Request) (u : GoURL)
    (hu : unwrapScheme req.url "cache" = .ok u)
    (hs : d.store (cachePathForURL d.hash c.cacheDir u) = .notFound) :
    roundTripWithValidation d c t req
      = validateFetch d t req (cachePathForURL d.hash c.cacheDir u) u false [] 0 := by
  simp [roundTripWithValidation, hu, hs]

theorem roundTripWithValidation_writeCache_indep (d : Deps)
    (wc : String → List Nat → Except String Unit) (c : CacheRoundTripper) (t : Transport)
    (req : Request) :
    roundTripWithValidation { d with writeCache := wc } c t req
      = roundTripWithValidation d c t req := by
  cases hu : unwrapScheme req.url "cache" with
  | error e => simp [roundTripWithValidation, hu]
  | ok u =>
    have hvf : ∀ path hasCache body mt,
        validateFetch { d with writeCache := wc } t req path u hasCache body mt
          = validateFetch d t req path u hasCache body mt := by
      intro path hasCache body mt
      have hup : upstreamRequest { d with writeCache := wc } req u hasCache mt
          = upstreamRequest d req u hasCache mt := rfl
      cases ht : t (upstreamRequest d req u hasCache mt) with
      | error e => simp [validateFetch, hup, ht]
      | ok resp => simp [validateFetch, hup, ht]
    cases hs : d.store (cachePathForURL d.hash c.cacheDir u) with
    | found b m => simp [roundTripWithValidation, hu, hs, hvf]
    | notFound => simp [roundTripWithValidation, hu, hs, hvf]
    | ioErr e => simp [roundTripWithValidation, hu, hs, hvf]

theorem roundTripCacheOnly_effects (d : Deps) (c : CacheRoundTripper) (req : Request) :
    (roundTripCacheOnly d c req).2 = {} := by
  cases hu : unwrapScheme req.url "cachez" with
  | error e => simp [roundTripCacheOnly, hu]
  | ok v =>
    cases hs : d.store (cachePathForURL d.hash c.cacheDir v) with
    | found b m => simp [roundTripCacheOnly, hu, hs]
    | notFound => simp [roundTripCacheOnly, hu, hs]
    | ioErr e => simp [roundTripCacheOnly, hu, hs]

/-! Claim theorems. -/

/-- C1: during a validating fetch whose URL unwraps successfully, when a
cache entry exists a transport error or a response whose status is neither
2xx nor 304 yields the synthesized cached response with no error; when no
entry exists a transport error is propagated and a non-success-status
upstream response is returned unmodified. -/
theorem C1_cache_beats_failure (d : Deps) (c : CacheRoundTripper) (t : Transport)
    (req : Request) (u : GoURL)
    (hu : unwrapScheme req.url "cache" = .ok u) :
    (∀ body mt e, d.store (cachePathForURL d.hash c.cacheDir u) = .found body mt →
        t (upstreamRequest d req u true mt) = .error e →
        (roundTripWithValidation d c t req).1 = .ok (cachedResponse req body))
    ∧ (∀ body mt resp, d.store (cachePathForURL d.hash c.cacheDir u) = .found body mt →
        t (upstreamRequest d req u true mt) = .ok resp →
        resp.statusCode ≠ StatusNotModified →
        ¬(StatusOK ≤ resp.statusCode ∧ resp.statusCode < StatusMultipleChoices) →
        (roundTripWithValidation d c t req).1 = .ok (cachedResponse req body))
    ∧ (∀ e, d.store (cachePathForURL d.hash c.cacheDir u) = .notFound →
        t (upstreamRequest d req u false 0) = .error e →
        (roundTripWithValidation d c t req).1 = .error e)
    ∧ (∀ resp, d.store (cachePathForURL d.hash c.cacheDir u) = .notFound →
        t (upstreamRequest d req u false 0) = .ok resp →
        ¬(StatusOK ≤ resp.statusCode ∧ resp.statusCode < StatusMultipleChoices) →
        (roundTripWithValidation d c t req).1 = .ok resp) := by
  refine ⟨?_, ?_, ?_, ?_⟩
  · intro body mt e hs ht
    rw [roundTripWithValidation_found d c t req u body mt hu hs]
    simp [validateFetch, ht]
  · intro body mt resp hs ht h304 h2xx
    rw [roundTripWithValidation_found d c t req u body mt hu hs]
    simp only [validateFetch, ht]
    rw [if_neg (by simp [h304]), if_neg h2xx]
    simp
  · intro e hs ht
    rw [roundTripWithValidation_notFound d c t req u hu hs]
    simp [validateFetch, ht]
  · intro resp hs ht h2xx
    rw [roundTripWithValidation_notFound d c t req u hu hs]
    simp only [validateFetch, ht]
    rw [if_neg (by simp), if_neg h2xx, if_neg (by simp)]

/-- Witness for C1 at concrete inputs: with an entry `[1, 2]`, a transport
error yields the cached response; without an entry, the error `boom` is
propagated and a 500 response is returned unmodified. -/
theorem C1_witness :
    (roundTripWithValidation depsHit rtFix tErr reqFix).1 = .ok (cachedResponse reqFix [1, 2])
    ∧ (roundTripWithValidation depsMiss rtFix tErr reqFix).1 = .error "boom"
    ∧ (roundTripWithValidation depsHit rtFix tServerError reqFix).1
        = .ok (cachedResponse reqFix [1, 2]) :=
  ⟨(C1_cache_beats_failure depsHit rtFix tErr reqFix ⟨"http", "//x"⟩ (by decide)).1
      [1, 2] 5 "boom" (by decide) (by decide),
   (C1_cache_beats_failure depsMiss rtFix tErr reqFix ⟨"http", "//x"⟩ (by decide)).2.2.1
      "boom" (by decide) (by decide),
   (C1_cache_beats_failure depsHit rtFix tServerError reqFix ⟨"http", "//x"⟩ (by decide)).2.1
      [1, 2] 5 { statusCode := 500, status := "500 Internal Server Error", headers := [],
                 body := .ok [4], contentLength := 1,
                 request := some (upstreamRequest depsHit reqFix ⟨"http", "//x"⟩ true 5) }
      (by decide) (by decide) (by decide) (by decide)⟩

/-- C2: during a validating fetch, a 304 upstream answer with a cache
entry yields a response synthesized by `cachedResponse`: status 200, the
`X-HTTP-Cache: HIT` marker, body equal to the cached bytes, content length
equal to the byte count; the synthesis is total and has these properties
for every request and byte list. -/
theorem C2_not_modified_serves_cache (d : Deps) (c : CacheRoundTripper) (t : Transport)
    (req : Request) (u : GoURL) (body : List Nat) (mt : Int) (resp : Response)
    (hu : unwrapScheme req.url "cache" = .ok u)
    (hs : d.store (cachePathForURL d.hash c.cacheDir u) = .found body mt)
    (ht : t (upstreamRequest d req u true mt) = .ok resp)
    (h304 : resp.statusCode = StatusNotModified) :
    (roundTripWithValidation d c t req).1 = .ok (cachedResponse req body)
    ∧ (∀ (r : Request) (b : List Nat),
        (cachedResponse r b).statusCode = 200
        ∧ headerGet (cachedResponse r b).headers "X-HTTP-Cache" = "HIT"
        ∧ (cachedResponse r b).body = .ok b
        ∧ (cachedResponse r b).contentLength = (b.length : Int)) := by
  constructor
  · rw [roundTripWithValidation_found d c t req u body mt hu hs]
    simp only [validateFetch, ht]
    simp [h304]
  · intro r b
    exact ⟨rfl, rfl, rfl, rfl⟩

/-- Witness for C2 at concrete inputs: a 304 answer over the entry
`[1, 2]` yields the synthesized cached response. -/
theorem C2_witness :
    (roundTripWithValidation depsHit rtFix tNotModified reqFix).1
      = .ok (cachedResponse reqFix [1, 2])
    ∧ (cachedResponse reqFix [1, 2]).statusCode = 200 :=
  have h := C2_not_modified_serves_cache depsHit rtFix tNotModified reqFix ⟨"http", "//x"⟩
    [1, 2] 5 { statusCode := 304, status := "304 Not Modified", headers := [],
               body := .ok [], contentLength := 0,
               request := some (upstreamRequest depsHit reqFix ⟨"http", "//x"⟩ true 5) }
    (by decide) (by decide) (by decide) (by decide)
  ⟨h.1, (h.2 reqFix [1, 2]).1⟩

/-- C5: a cache-only fetch whose URL unwraps successfully serves the
synthesized cached response on a hit, fails with a `cache miss` error
naming the destination URL when the entry is absent, and propagates any
other storage error unchanged. -/
theorem C5_cache_only_outcomes (d : Deps) (c : CacheRoundTripper) (req : Request) (u : GoURL)
    (hu : unwrapScheme req.url "cachez" = .ok u) :
    (∀ body mt, d.store (cachePathForURL d.hash c.cacheDir u) = .found body mt →
        roundTripCacheOnly d c req = (.ok (cachedResponse req body), {}))
    ∧ (d.store (cachePathForURL d.hash c.cacheDir u) = .notFound →
        roundTripCacheOnly d c req = (.error ("cache miss for " ++ renderURL u), {}))
    ∧ (∀ e, d.store (cachePathForURL d.hash c.cacheDir u) = .ioErr e →
        roundTripCacheOnly d c req = (.error e, {})) := by
  refine ⟨?_, ?_, ?_⟩
  · intro body mt hs
    simp [roundTripCacheOnly, hu, hs]
  · intro hs
    simp [roundTripCacheOnly, hu, hs]
  · intro e hs
    simp [roundTripCacheOnly, hu, hs]

/-- Witness for C5 at concrete inputs: a hit on the entry `[1, 2]` and a
miss whose error message names the destination `http://x`. -/
theorem C5_witness :
    roundTripCacheOnly depsHit rtFix reqFixZ = (.ok (cachedResponse reqFixZ [1, 2]), {})
    ∧ roundTripCacheOnly depsMiss rtFix reqFixZ = (.error "cache miss for http://x", {}) :=
  ⟨(C5_cache_only_outcomes depsHit rtFix reqFixZ ⟨"http", "//x"⟩ (by decide)).1
      [1, 2] 5 (by decide),
   (C5_cache_only_outcomes depsMiss rtFix reqFixZ ⟨"http", "//x"⟩ (by decide)).2.1
      (by decide)⟩

/-- C6: a request dispatched to the cache-only mode (scheme `cachez`)
never invokes the transport collaborator, whatever the outcome: the list
of transport invocations recorded by the round trip is empty. -/
theorem C6_cache_only_zero_transport_calls (d : Deps) (c : CacheRoundTripper) (req : Request)
    (hz : req.url.scheme = "cachez") :
    (RoundTrip d c req).2.transportReqs.length = 0 := by
  cases ho : c.original with
  | none => simp [RoundTrip, ho]
  | some t =>
    simp [RoundTrip, ho, hz, roundTripCacheOnly_effects]

/-- Witness for C6 at concrete inputs: a cache-only hit, a cache-only
miss, an unwrap failure and a storage error all record zero transport
calls. -/
theorem C6_witness :
    (RoundTrip depsHit ⟨some tErr, "d"⟩ reqFixZ).2.transportReqs.length = 0
    ∧ (RoundTrip depsMiss ⟨some tErr, "d"⟩ reqFixZ).2.transportReqs.length = 0
    ∧ (RoundTrip depsMiss ⟨some tErr, "d"⟩ ⟨⟨"cachez", ""⟩, []⟩).2.transportReqs.length = 0
    ∧ (RoundTrip ⟨hashId, fun _ => .ioErr "io", writeOk, fmtFix⟩ ⟨some tErr, "d"⟩
        reqFixZ).2.transportReqs.length = 0 :=
  ⟨C6_cache_only_zero_transport_calls depsHit ⟨some tErr, "d"⟩ reqFixZ (by decide),
   C6_cache_only_zero_transport_calls depsMiss ⟨some tErr, "d"⟩ reqFixZ (by decide),
   C6_cache_only_zero_transport_calls depsMiss ⟨some tErr, "d"⟩ ⟨⟨"cachez", ""⟩, []⟩ (by decide),
   C6_cache_only_zero_transport_calls ⟨hashId, fun _ => .ioErr "io", writeOk, fmtFix⟩
     ⟨some tErr, "d"⟩ reqFixZ (by decide)⟩

/-- C3: for every destination wrapped in either synthetic marker, the two
modes unwrap to the same destination URL and hence derive the same cache
path, and the key derivation collapses a remaining `cache` or `cachez`
scheme to `http` before hashing. -/
theorem C3_key_normalization (hash : String → String) (cacheDir : String) (D : String)
    (u1 u2 : GoURL)
    (h1 : unwrapScheme ⟨"cache", D⟩ "cache" = .ok u1)
    (h2 : unwrapScheme ⟨"cachez", D⟩ "cachez" = .ok u2) :
    u1 = u2
    ∧ cachePathForURL hash cacheDir u1 = cachePathForURL hash cacheDir u2
    ∧ (∀ r : String,
        cachePathForURL hash cacheDir ⟨"cache", r⟩ = cachePathForURL hash cacheDir ⟨"http", r⟩
        ∧ cachePathForURL hash cacheDir ⟨"cachez", r⟩
            = cachePathForURL hash cacheDir ⟨"http", r⟩) := by
  have hren1 : renderURL ⟨"cache", D⟩ = ("cache" ++ ":") ++ D := by
    simp [renderURL]
  have hren2 : renderURL ⟨"cachez", D⟩ = ("cachez" ++ ":") ++ D := by
    simp [renderURL]
  rw [unwrapScheme_ok_iff, hren1, goTrimPfx_self_append] at h1
  rw [unwrapScheme_ok_iff, hren2, goTrimPfx_self_append] at h2
  have he : u1 = u2 := by
    have := h1.2.2.1.symm.trans h2.2.2.1
    simpa using this
  refine ⟨he, by rw [he], ?_⟩
  intro r
  constructor <;> simp [cachePathForURL]

/-- Witness for C3 at the concrete destination `http://x`: both wrapped
forms unwrap to the same URL and a leftover synthetic scheme hashes like
`http`. -/
theorem C3_witness :
    cachePathForURL hashId "d" ⟨"http", "//x"⟩ = cachePathForURL hashId "d" ⟨"http", "//x"⟩
    ∧ cachePathForURL hashId "d" ⟨"cachez", "//x"⟩ = cachePathForURL hashId "d" ⟨"http", "//x"⟩ :=
  have h := C3_key_normalization hashId "d" "http://x" ⟨"http", "//x"⟩ ⟨"http", "//x"⟩
    (by decide) (by decide)
  ⟨h.2.1, (h.2.2 "//x").2⟩

/-- C4: during a validating fetch answered with a 2xx status, a fully
buffered body is written to the cache and returned with its content length
updated to the buffered size; a body-read failure falls back to the cached
entry when one exists and is propagated otherwise; and the outcome never
depends on the cache-write collaborator, so a write failure is swallowed. -/
theorem C4_success_buffering (d : Deps) (c : CacheRoundTripper) (t : Transport)
    (req : Request) (u : GoURL)
    (hu : unwrapScheme req.url "cache" = .ok u) :
    (∀ body mt resp bytes, d.store (cachePathForURL d.hash c.cacheDir u) = .found body mt →
        t (upstreamRequest d req u true mt) = .ok resp →
        StatusOK ≤ resp.statusCode → resp.statusCode < StatusMultipleChoices →
        resp.body = .ok bytes →
        roundTripWithValidation d c t req
          = (.ok { resp with body := .ok bytes, contentLength := (bytes.length : Int) },
             { transportReqs := [upstreamRequest d req u true mt],
               cacheWrites := [(cachePathForURL d.hash c.cacheDir u, bytes)] }))
    ∧ (∀ resp bytes, d.store (cachePathForURL d.hash c.cacheDir u) = .notFound →
        t (upstreamRequest d req u false 0) = .ok resp →
        StatusOK ≤ resp.statusCode → resp.statusCode < StatusMultipleChoices →
        resp.body = .ok bytes →
        roundTripWithValidation d c t req
          = (.ok { resp with body := .ok bytes, contentLength := (bytes.length : Int) },
             { transportReqs := [upstreamRequest d req u false 0],
               cacheWrites := [(cachePathForURL d.hash c.cacheDir u, bytes)] }))
    ∧ (∀ body mt resp e, d.store (cachePathForURL d.hash c.cacheDir u) = .found body mt →
        t (upstreamRequest d req u true mt) = .ok resp →
        StatusOK ≤ resp.statusCode → resp.statusCode < StatusMultipleChoices →
        resp.body = .error e →
        (roundTripWithValidation d c t req).1 = .ok (cachedResponse req body))
    ∧ (∀ resp e, d.store (cachePathForURL d.hash c.cacheDir u) = .notFound →
        t (upstreamRequest d req u false 0) = .ok resp →
        StatusOK ≤ resp.statusCode → resp.statusCode < StatusMultipleChoices →
        resp.body = .error e →
        (roundTripWithValidation d c t req).1 = .error e)
    ∧ (∀ wc, roundTripWithValidation { d with writeCache := wc } c t req
        = roundTripWithValidation d c t req) := by
  refine ⟨?_, ?_, ?_, ?_, fun wc => roundTripWithValidation_writeCache_indep d wc c t req⟩
  · intro body mt resp bytes hs ht h2a h2b hb
    have hne : resp.statusCode ≠ StatusNotModified := by
      simp only [StatusNotModified, StatusMultipleChoices] at *
      omega
    rw [roundTripWithValidation_found d c t req u body mt hu hs]
    simp only [validateFetch, ht]
    simp [hne, h2a, h2b, hb]
  · intro resp bytes hs ht h2a h2b hb
    rw [roundTripWithValidation_notFound d c t req u hu hs]
    simp only [validateFetch, ht]
    simp [h2a, h2b, hb]
  · intro body mt resp e hs ht h2a h2b hb
    have hne : resp.statusCode ≠ StatusNotModified := by
      simp only [StatusNotModified, StatusMultipleChoices] at *
      omega
    rw [roundTripWithValidation_found d c t req u body mt hu hs]
    simp only [validateFetch, ht]
    simp [hne, h2a, h2b, hb]
  · intro resp e hs ht h2a h2b hb
    rw [roundTripWithValidation_notFound d c t req u hu hs]
    simp only [validateFetch, ht]
    simp [h2a, h2b, hb]

/-- Witness for C4 at concrete inputs: a fresh 200 body `[7, 8, 9]` is
buffered, written to the cache path and returned with content length 3,
and replacing the cache-write collaborator by a failing one leaves the
outcome unchanged. -/
theorem C4_witness :
    roundTripWithValidation depsHit rtFix tFresh reqFix
      = (.ok { statusCode := 200, status := "200 OK", headers := [], body := .ok [7, 8, 9],
               contentLength := 3,
               request := some (upstreamRequest depsHit reqFix ⟨"http", "//x"⟩ true 5) },
         { transportReqs := [upstreamRequest depsHit reqFix ⟨"http", "//x"⟩ true 5],
           cacheWrites := [("d/http://x", [7, 8, 9])] })
    ∧ roundTripWithValidation ⟨hashId, storeHit, writeFail, fmtFix⟩ rtFix tFresh reqFix
        = roundTripWithValidation depsHit rtFix tFresh reqFix :=
  have h := C4_success_buffering depsHit rtFix tFresh reqFix ⟨"http", "//x"⟩ (by decide)
  ⟨h.1 [1, 2] 5
      { statusCode := 200, status := "200 OK", headers := [], body := .ok [7, 8, 9],
        contentLength := -1,
        request := some (upstreamRequest depsHit reqFix ⟨"http", "//x"⟩ true 5) }
      [7, 8, 9] (by decide) (by decide) (by decide) (by decide) (by decide),
   h.2.2.2.2 writeFail⟩

/-- C7: during a validating fetch the upstream request handed to the
transport is exactly the retargeted clone; its `If-Modified-Since` header
is attached precisely when an entry exists and the caller set none, with
value the formatted stored modification time, and the clone is untouched
otherwise. -/
theorem C7_if_modified_since (d : Deps) (c : CacheRoundTripper) (t : Transport)
    (req : Request) (u : GoURL)
    (hu : unwrapScheme req.url "cache" = .ok u) :
    (∀ body mt, d.store (cachePathForURL d.hash c.cacheDir u) = .found body mt →
      (roundTripWithValidation d c t req).2.transportReqs = [upstreamRequest d req u true mt]
      ∧ (headerGet req.headers "If-Modified-Since" = "" →
          (upstreamRequest d req u true mt).headers
            = headerSet req.headers "If-Modified-Since" (d.fmtTime mt)
          ∧ headerGet (upstreamRequest d req u true mt).headers "If-Modified-Since"
            = d.fmtTime mt)
      ∧ (headerGet req.headers "If-Modified-Since" ≠ "" →
          upstreamRequest d req u true mt = { req with url := u }))
    ∧ (d.store (cachePathForURL d.hash c.cacheDir u) = .notFound →
      (roundTripWithValidation d c t req).2.transportReqs = [upstreamRequest d req u false 0]
      ∧ upstreamRequest d req u false 0 = { req with url := u }) := by
  constructor
  · intro body mt hs
    refine ⟨?_, ?_, ?_⟩
    · rw [roundTripWithValidation_found d c t req u body mt hu hs, validateFetch_effects]
    · intro hrq
      constructor
      · simp [upstreamRequest, hrq]
      · simp [upstreamRequest, hrq, headerGet_headerSet]
    · intro hrq
      simp [upstreamRequest, hrq]
  · intro hs
    constructor
    · rw [roundTripWithValidation_notFound d c t req u hu hs, validateFetch_effects]
    · simp [upstreamRequest]

/-- Witness for C7 at concrete inputs: with no caller header the clone
carries the formatted modification time of the entry; with a caller header
the clone is only retargeted. -/
theorem C7_witness :
    headerGet (upstreamRequest depsHit reqFix ⟨"http", "//x"⟩ true 5).headers
        "If-Modified-Since" = "mt=5"
    ∧ upstreamRequest depsHit reqIMS ⟨"http", "//x"⟩ true 5
        = { reqIMS with url := ⟨"http", "//x"⟩ }
    ∧ (roundTripWithValidation depsHit rtFix tErr reqFix).2.transportReqs
        = [upstreamRequest depsHit reqFix ⟨"http", "//x"⟩ true 5] :=
  have h := C7_if_modified_since depsHit rtFix tErr reqFix ⟨"http", "//x"⟩ (by decide)
  have h2 := C7_if_modified_since depsHit rtFix tErr reqIMS ⟨"http", "//x"⟩ (by decide)
  ⟨((h.1 [1, 2] 5 (by decide)).2.1 (by decide)).2,
   (h2.1 [1, 2] 5 (by decide)).2.2 (by decide),
   (h.1 [1, 2] 5 (by decide)).1⟩

/-- C8: URL unwrapping fails exactly when the serialized URL lacks the
`scheme:` marker, the stripped remainder is empty, the remainder fails to
parse, or the parsed destination has no scheme of its own; otherwise it
returns the parsed destination.  The function is pure, so it has no side
effects. -/
theorem C8_unwrap_characterization (u : GoURL) (sch : String) :
    ((∃ e, unwrapScheme u sch = .error e) ↔
      goHasPfx (renderURL u) (sch ++ ":") = false
        ∨ goTrimPfx (renderURL u) (sch ++ ":") = ""
        ∨ (∃ e, parseGoURL (goTrimPfx (renderURL u) (sch ++ ":")) = .error e)
        ∨ (∃ t, parseGoURL (goTrimPfx (renderURL u) (sch ++ ":")) = .ok t ∧ t.scheme = ""))
    ∧ (∀ t : GoURL, unwrapScheme u sch = .ok t ↔
        (goHasPfx (renderURL u) (sch ++ ":") = true
          ∧ goTrimPfx (renderURL u) (sch ++ ":") ≠ ""
          ∧ parseGoURL (goTrimPfx (renderURL u) (sch ++ ":")) = .ok t
          ∧ t.scheme ≠ "")) := by
  constructor
  · simp only [unwrapScheme]
    cases hp : goHasPfx (renderURL u) (sch ++ ":") with
    | false => simp [hp]
    | true =>
      simp only [hp, Bool.not_true, Bool.false_eq_true, if_false]
      by_cases he : goTrimPfx (renderURL u) (sch ++ ":") = ""
      · simp [he]
      · simp only [he, if_neg, not_false_eq_true]
        cases hr : parseGoURL (goTrimPfx (renderURL u) (sch ++ ":")) with
        | error e => simp [hr, he]
        | ok v =>
          by_cases hs : v.scheme = ""
          · simp [hr, hs, he]
          · simp [hr, hs, he]
  · exact unwrapScheme_ok_iff u sch

/-- C10: the validating fetch never mutates the caller's request — the
embedding is pure, the transport receives a retargeted clone that is a
different value from the caller's request (its URL is the unwrapped
destination, which is always distinct from the wrapped URL), the
conditional header is set only on that clone, and the synthesized cached
response's request field is the caller's original wrapped request. -/
theorem C10_request_isolation (d : Deps) (c : CacheRoundTripper) (t : Transport)
    (req : Request) (u : GoURL) (body : List Nat) (mt : Int)
    (hu : unwrapScheme req.url "cache" = .ok u)
    (hs : d.store (cachePathForURL d.hash c.cacheDir u) = .found body mt) :
    (roundTripWithValidation d c t req).2.transportReqs = [upstreamRequest d req u true mt]
    ∧ (upstreamRequest d req u true mt).url = u
    ∧ u ≠ req.url
    ∧ upstreamRequest d req u true mt ≠ req
    ∧ (cachedResponse req body).request = some req
    ∧ (headerGet req.headers "If-Modified-Since" ≠ "" →
        (upstreamRequest d req u true mt).headers = req.headers) := by
  have hurl : (upstreamRequest d req u true mt).url = u := by
    simp only [upstreamRequest]
    split <;> rfl
  have hne : u ≠ req.url := unwrapScheme_ok_ne hu
  refine ⟨?_, hurl, hne, ?_, rfl, ?_⟩
  · rw [roundTripWithValidation_found d c t req u body mt hu hs, validateFetch_effects]
  · intro heq
    apply hne
    rw [← hurl, heq]
  · intro hrq
    simp [upstreamRequest, hrq]

/-- Witness for C10 at concrete inputs: the transport sees the retargeted
clone, which differs from the caller's request, and the synthesized
response points back at the caller's request. -/
theorem C10_witness :
    (roundTripWithValidation depsHit rtFix tErr reqFix).2.transportReqs
        = [upstreamRequest depsHit reqFix ⟨"http", "//x"⟩ true 5]
    ∧ upstreamRequest depsHit reqFix ⟨"http", "//x"⟩ true 5 ≠ reqFix
    ∧ (cachedResponse reqFix [1, 2]).request = some reqFix :=
  have h := C10_request_isolation depsHit rtFix tErr reqFix ⟨"http", "//x"⟩ [1, 2] 5
    (by decide) (by decide)
  ⟨h.1, h.2.2.2.1, h.2.2.2.2.1⟩

/-- C9 counterexample: constructing the decorator with an unset transport
does not fail — `NewRoundTripper` substitutes the default transport and
succeeds on a nonempty cache directory. -/
theorem C9_counterexample :
    NewRoundTripper tErr mkdirOk "d" none = .ok ⟨some tErr, "d"⟩ := rfl

/-- C9 (amended): an empty cache directory is a construction error and a
nil host transport is a registration error, both surfaced immediately; an
unset wrapped transport is not a construction error — the default
transport is substituted — and an unset transport field is instead
reported as an error when a request is dispatched. -/
theorem C9_configuration_errors (defaultT : Transport) (mk : String → Except String Unit)
    (cacheDir : String) (original : Option Transport) (d : Deps) (c : CacheRoundTripper)
    (req : Request) (hnil : c.original = none) :
    (∀ orig, NewRoundTripper defaultT mk "" orig = .error "cache directory is required")
    ∧ AddCacheRoundTripper defaultT mk cacheDir original none = .error "transport is nil"
    ∧ (∀ rt, NewRoundTripper defaultT mk cacheDir none = .ok rt →
        rt.original = some defaultT)
    ∧ RoundTrip d c req = (.error "original RoundTripper is not set", {}) := by
  refine ⟨?_, rfl, ?_, ?_⟩
  · intro orig
    simp [NewRoundTripper]
  · intro rt h
    by_cases hc : cacheDir = ""
    · simp [NewRoundTripper, hc] at h
    · simp only [NewRoundTripper, hc, if_neg, if_false] at h
      cases hm : mk cacheDir with
      | error e => simp [hm] at h
      | ok v =>
        simp only [hm, Except.ok.injEq] at h
        rw [← h]
  · simp [RoundTrip, hnil]

/-- Witness for C9 (amended) at concrete inputs: empty directory and nil
host transport fail, a nil wrapped transport is substituted by the
default, and a decorator with an unset transport field fails at request
time. -/
theorem C9_witness :
    NewRoundTripper tErr mkdirOk "" none = .error "cache directory is required"
    ∧ AddCacheRoundTripper tErr mkdirOk "d" none none = .error "transport is nil"
    ∧ (⟨some tErr, "d"⟩ : CacheRoundTripper).original = some tErr
    ∧ RoundTrip depsHit rtFix reqFix = (.error "original RoundTripper is not set", {}) :=
  have h := C9_configuration_errors tErr mkdirOk "d" none depsHit rtFix reqFix rfl
  ⟨h.1 none, h.2.1, h.2.2.1 ⟨some tErr, "d"⟩ rfl, h.2.2.2⟩

end Httpcache
